import Mathlib

/-!
Formal model of the `vanilla-option-pricing` library.

This file gives a shallow embedding, over the real numbers, of the data
model and the operations of the library: the `VanillaOption` record
(`option.py`), the variance-model family (`models.py`), the pricing
adapter (`option_pricing.py`) and the calibration engine
(`calibration.py`).  External capabilities (the undiscounted-Black
pricing formula, the Black-Scholes-Merton formula, the implied-volatility
root finder and the bounded nonlinear optimiser) are taken as parameters
of the embedded operations; the matrix exponential used by the numerical
variance model is `NormedSpace.exp` over real matrices.  Python dates are
modelled at day granularity by integers, Python floats by `ℝ`, and a
Python exception by the `Except` monad.
-/

namespace VOP

noncomputable section

/-! ### Strings: the Python `str.lower` used by `VanillaOption.__init__` -/

/-- Embedding of the Python lower-casing applied to an option-type code:
every character is mapped to its lower-case form. -/
def pyLower (s : String) : String :=
  String.mk (s.data.map Char.toLower)

/-! ### `option.py` : `VanillaOption` -/

/-- Number of days in a year, `VanillaOption.DAYS_IN_YEAR` in `option.py`. -/
def DAYS_IN_YEAR : ℝ := 365.2425

/-- The record stored by `VanillaOption.__init__`. Dates are modelled at day
granularity as integers (the code only ever uses the day difference of the
two dates). -/
structure VanillaOption where
  instrument : String
  option_type : String
  date : ℤ
  price : ℝ
  strike : ℝ
  spot : ℝ
  maturity : ℤ
  dividend : ℝ

/-- Embedding of `VanillaOption.__init__`: every field is stored
unconditionally; `option_type` is lower-cased on the way in and no
membership check is performed at construction time. -/
def mkVanillaOption (instrument : String) (option_type : String) (date : ℤ)
    (price : ℝ) (strike : ℝ) (spot : ℝ) (maturity : ℤ) (dividend : ℝ) :
    VanillaOption :=
  { instrument := instrument
    option_type := pyLower option_type
    date := date
    price := price
    strike := strike
    spot := spot
    maturity := maturity
    dividend := dividend }

/-- Embedding of the `years_to_maturity` property: the integer day
difference `(maturity - date).days` divided by `DAYS_IN_YEAR`. -/
def VanillaOption.years_to_maturity (o : VanillaOption) : ℝ :=
  ((o.maturity - o.date : ℤ) : ℝ) / DAYS_IN_YEAR

/-- Outcome of the external implied-volatility routine
(`py_vollib.black.implied_volatility`): either a volatility, or the
distinguished below-intrinsic signal (`BelowIntrinsicException`). -/
inductive IVResult where
  | ok (v : ℝ)
  | belowIntrinsic

/-- The type of the external implied-volatility capability: arguments are
price, spot, strike, years to maturity and the option-type code. -/
abbrev IVRoutine := ℝ → ℝ → ℝ → ℝ → String → IVResult

/-- Embedding of the `implied_volatility_of_undiscounted_price` property:
raise `ValueError` when the stored option type is neither `"c"` nor `"p"`,
otherwise call the external routine, converting its below-intrinsic
signal into the value zero. -/
def VanillaOption.implied_volatility_of_undiscounted_price
    (iv : IVRoutine) (o : VanillaOption) : Except String ℝ :=
  if o.option_type ≠ "c" ∧ o.option_type ≠ "p" then
    Except.error "option_type shall be either c for call or p for put"
  else
    match iv o.price o.spot o.strike o.years_to_maturity o.option_type with
    | IVResult.ok v => Except.ok v
    | IVResult.belowIntrinsic => Except.ok 0

/-- One row of the tabular (pandas) representation of an option list: the
dictionary produced by `VanillaOption.to_dict`, with one entry per field
of the record. -/
structure OptionRow where
  instrument : String
  option_type : String
  date : ℤ
  price : ℝ
  strike : ℝ
  spot : ℝ
  maturity : ℤ
  dividend : ℝ

/-- Embedding of `VanillaOption.to_dict`: all the fields of the record. -/
def VanillaOption.to_dict (o : VanillaOption) : OptionRow :=
  { instrument := o.instrument
    option_type := o.option_type
    date := o.date
    price := o.price
    strike := o.strike
    spot := o.spot
    maturity := o.maturity
    dividend := o.dividend }

/-- Embedding of `option_list_to_pandas_dataframe`: the dataframe built
from the records `o.to_dict()`, one row per option, in order. -/
def option_list_to_pandas_dataframe (options : List VanillaOption) :
    List OptionRow :=
  options.map VanillaOption.to_dict

/-- Embedding of `pandas_dataframe_to_option_list`: one
`VanillaOption(**row)` per dataframe row, in order. -/
def pandas_dataframe_to_option_list (data_frame : List OptionRow) :
    List VanillaOption :=
  data_frame.map (fun r =>
    mkVanillaOption r.instrument r.option_type r.date r.price r.strike
      r.spot r.maturity r.dividend)

/-! ### `models.py` : the variance-model family

Each Python class becomes a structure holding the fields written by
`__init__`; the `parameters` property becomes a getter function and the
property setter becomes a `set_parameters` function returning the updated
record.  The setters in `models.py` assign the incoming components to the
fields directly, so the embedded setters are total functions. -/

/-- Matrices of the two-factor models. -/
abbrev Mat2 := Matrix (Fin 2) (Fin 2) ℝ

/-- The 4-by-4 matrices built by `NumericalModel.variance` for a two-state
system. -/
abbrev Mat4 := Matrix (Fin 4) (Fin 4) ℝ

/-- State of the `BlackScholes` model (`models.py`): the volatility `s`. -/
structure BlackScholes where
  s : ℝ

/-- The `parameters` getter of `BlackScholes`: the tuple `(s,)`. -/
def BlackScholes.parameters (m : BlackScholes) : ℝ := m.s

/-- The `parameters` setter of `BlackScholes`: stores `value[0]` into `s`
with no validation. -/
def BlackScholes.set_parameters (m : BlackScholes) (value : ℝ) :
    BlackScholes :=
  { m with s := value }

/-- Embedding of `BlackScholes.variance`: `s ** 2 * t`. -/
def BlackScholes.variance (m : BlackScholes) (t : ℝ) : ℝ :=
  m.s ^ 2 * t

/-- State of the `OrnsteinUhlenbeck` model (`models.py`). -/
structure OrnsteinUhlenbeck where
  p_0 : ℝ
  l : ℝ
  s : ℝ

/-- The `parameters` getter of `OrnsteinUhlenbeck`: the tuple `(l, s)`. -/
def OrnsteinUhlenbeck.parameters (m : OrnsteinUhlenbeck) : ℝ × ℝ :=
  (m.l, m.s)

/-- The `parameters` setter of `OrnsteinUhlenbeck`: stores `value[0]` into
`l` and `value[1]` into `s` with no validation. -/
def OrnsteinUhlenbeck.set_parameters (m : OrnsteinUhlenbeck) (value : ℝ × ℝ) :
    OrnsteinUhlenbeck :=
  { m with l := value.1, s := value.2 }

/-- Embedding of `OrnsteinUhlenbeck.variance`:
`p_0 * exp(-2 l t) + s^2 / (2 l) * (1 - exp(-2 l t))`. -/
def OrnsteinUhlenbeck.variance (m : OrnsteinUhlenbeck) (t : ℝ) : ℝ :=
  m.p_0 * Real.exp (-2 * m.l * t) +
    m.s ^ 2 / (2 * m.l) * (1 - Real.exp (-2 * m.l * t))

/-- State of the `LogMeanRevertingToGeneralisedWienerProcess` model. -/
structure LogMeanRevertingToGeneralisedWienerProcess where
  p_0 : Mat2
  l : ℝ
  s_x : ℝ
  s_y : ℝ

/-- The `parameters` getter of the closed-form LMRGW model: the tuple
`(l, s_x, s_y)`. -/
def LogMeanRevertingToGeneralisedWienerProcess.parameters
    (m : LogMeanRevertingToGeneralisedWienerProcess) : ℝ × ℝ × ℝ :=
  (m.l, m.s_x, m.s_y)

/-- The `parameters` setter of the closed-form LMRGW model: stores the
three components with no validation. -/
def LogMeanRevertingToGeneralisedWienerProcess.set_parameters
    (m : LogMeanRevertingToGeneralisedWienerProcess) (value : ℝ × ℝ × ℝ) :
    LogMeanRevertingToGeneralisedWienerProcess :=
  { m with l := value.1, s_x := value.2.1, s_y := value.2.2 }

/-- Embedding of the closed-form
`LogMeanRevertingToGeneralisedWienerProcess.variance`. -/
def LogMeanRevertingToGeneralisedWienerProcess.variance
    (m : LogMeanRevertingToGeneralisedWienerProcess) (t : ℝ) : ℝ :=
  (m.p_0 0 0 - 2 * m.p_0 1 0 + m.p_0 1 1 -
      (m.s_x ^ 2 + m.s_y ^ 2) / (2 * m.l)) * Real.exp (-2 * m.l * t) +
    2 * (m.p_0 1 0 - m.p_0 1 1 + m.s_y ^ 2 / m.l) * Real.exp (-m.l * t) +
    (m.s_y ^ 2 * t + (m.s_x ^ 2 - 3 * m.s_y ^ 2) / (2 * m.l) + m.p_0 1 1)

/-- State of the general linear stochastic system `NumericalModel`,
for a two-dimensional state. -/
structure NumericalModel where
  A : Mat2
  B : Mat2
  p_0 : Mat2

/-- The `parameters` getter of `NumericalModel`: the pair `(A, B)`. -/
def NumericalModel.parameters (m : NumericalModel) : Mat2 × Mat2 :=
  (m.A, m.B)

/-- The `parameters` setter of `NumericalModel`, exactly as written in
`models.py`: `self.A = value[0]` followed by `self.B = value[0]` (the
second assignment reads component 0 of the incoming pair, not
component 1). -/
def NumericalModel.set_parameters (m : NumericalModel) (value : Mat2 × Mat2) :
    NumericalModel :=
  { m with A := value.1, B := value.1 }

/-- The block matrix `np.block([[A, Q], [zeros, -A^T]])` assembled by
`NumericalModel.variance`, with `Q` the product `B @ B^T`, written out
entrywise for a two-dimensional state. -/
def blockM (A Q : Mat2) : Mat4 :=
  !![A 0 0, A 0 1, Q 0 0, Q 0 1;
     A 1 0, A 1 1, Q 1 0, Q 1 1;
     0, 0, -A 0 0, -A 1 0;
     0, 0, -A 0 1, -A 1 1]

/-- Embedding of `NumericalModel.variance` (the Van Loan computation):
exponentiate the block matrix scaled by `t`, slice the result into four
`2 x 2` blocks at `dim = 2`, and return entry `(0, 0)` of
`(F00 @ p_0 + F01) @ inv(F11)`. -/
def NumericalModel.variance (m : NumericalModel) (t : ℝ) : ℝ :=
  let F : Mat4 := NormedSpace.exp ℝ (t • blockM m.A (m.B * m.B.transpose))
  let F00 : Mat2 := !![F 0 0, F 0 1; F 1 0, F 1 1]
  let F01 : Mat2 := !![F 0 2, F 0 3; F 1 2, F 1 3]
  let F11 : Mat2 := !![F 2 2, F 2 3; F 3 2, F 3 3]
  ((F00 * m.p_0 + F01) * F11⁻¹) 0 0

/-- State of `NumericalLogMeanRevertingToGeneralisedWienerProcess`: the
scalar parameters together with the internal `NumericalModel`. -/
structure NumericalLogMeanRevertingToGeneralisedWienerProcess where
  p_0 : Mat2
  l : ℝ
  s_x : ℝ
  s_y : ℝ
  numerical_model : NumericalModel

/-- The private `__get_A_matrix` helper: `[[-l, l], [0, 0]]`. -/
def getAMatrix (l : ℝ) : Mat2 := !![-l, l; 0, 0]

/-- The private `__get_B_matrix` helper: `[[s_x, 0], [0, s_y]]`. -/
def getBMatrix (s_x s_y : ℝ) : Mat2 := !![s_x, 0; 0, s_y]

/-- Embedding of the `__init__` of the numerical LMRGW model: store the
scalar parameters and build the internal `NumericalModel` from the `A`
and `B` matrices derived from them. -/
def NumericalLogMeanRevertingToGeneralisedWienerProcess.mk'
    (p_0 : Mat2) (l s_x s_y : ℝ) :
    NumericalLogMeanRevertingToGeneralisedWienerProcess :=
  { p_0 := p_0
    l := l
    s_x := s_x
    s_y := s_y
    numerical_model :=
      { A := getAMatrix l, B := getBMatrix s_x s_y, p_0 := p_0 } }

/-- The `parameters` getter of the numerical LMRGW model. -/
def NumericalLogMeanRevertingToGeneralisedWienerProcess.parameters
    (m : NumericalLogMeanRevertingToGeneralisedWienerProcess) : ℝ × ℝ × ℝ :=
  (m.l, m.s_x, m.s_y)

/-- The `parameters` setter of the numerical LMRGW model: store the three
scalars, then assign the pair of rebuilt matrices to the `parameters` property
of the internal model (which runs the buggy `NumericalModel` setter). -/
def NumericalLogMeanRevertingToGeneralisedWienerProcess.set_parameters
    (m : NumericalLogMeanRevertingToGeneralisedWienerProcess)
    (value : ℝ × ℝ × ℝ) :
    NumericalLogMeanRevertingToGeneralisedWienerProcess :=
  let l := value.1
  let s_x := value.2.1
  let s_y := value.2.2
  { m with
    l := l
    s_x := s_x
    s_y := s_y
    numerical_model :=
      m.numerical_model.set_parameters (getAMatrix l, getBMatrix s_x s_y) }

/-- Embedding of the numerical LMRGW `variance`: delegate to the internal
`NumericalModel`. -/
def NumericalLogMeanRevertingToGeneralisedWienerProcess.variance
    (m : NumericalLogMeanRevertingToGeneralisedWienerProcess) (t : ℝ) : ℝ :=
  m.numerical_model.variance t

/-! ### `option_pricing.py` : the pricing adapter

`OptionPricingModel` is abstract over the concrete variance model: the
pricing methods only use the current parameter vector of the model (through
`variance`) and the two external closed-form pricing capabilities.  The
abstract model is embedded as a parameter vector together with the
variance function the concrete subclass implements; `variance` always
reads the current parameters, so no price is ever cached. -/

/-- Modelled from the spec: `check_option_type` is imported from
`vanilla_option_pricing.option` and called by the pricing methods of
`OptionPricingModel`, but its definition is not part of the provided
sources.  Per the spec, an option type outside `{"c", "p"}` fails with a
validation error when pricing is requested. -/
def check_option_type (option_type : String) : Except String Unit :=
  if option_type = "c" ∨ option_type = "p" then Except.ok ()
  else Except.error "option_type shall be either c for call or p for put"

/-- An `OptionPricingModel` as seen by the adapter methods and by the
calibration engine: a mutable parameter vector plus the variance law of
the concrete model, evaluated at the current parameters. -/
structure PricingModel where
  parameters : List ℝ
  varianceLaw : List ℝ → ℝ → ℝ

/-- Assignment to the abstract `parameters` property. -/
def PricingModel.set_parameters (m : PricingModel) (value : List ℝ) :
    PricingModel :=
  { m with parameters := value }

/-- Embedding of `OptionPricingModel.variance`: the variance of the
concrete model at the current parameter vector. -/
def PricingModel.variance (m : PricingModel) (t : ℝ) : ℝ :=
  m.varianceLaw m.parameters t

/-- Embedding of `OptionPricingModel.standard_deviation`: the square root
of the variance at the same instant. -/
def PricingModel.standard_deviation (m : PricingModel) (t : ℝ) : ℝ :=
  Real.sqrt (m.variance t)

/-- Embedding of `OptionPricingModel.volatility`: the standard deviation
divided by the square root of the time. -/
def PricingModel.volatility (m : PricingModel) (t : ℝ) : ℝ :=
  m.standard_deviation t / Real.sqrt t

/-- The type of the external `undiscounted_black` capability: arguments
are spot, strike, volatility, years to maturity and the option-type
code. -/
abbrev BlackRoutine := ℝ → ℝ → ℝ → ℝ → String → ℝ

/-- The type of the external `black_scholes_merton` capability: arguments
are the option-type code, spot, strike, years to maturity, risk-free
rate, volatility and dividend. -/
abbrev BSMRoutine := String → ℝ → ℝ → ℝ → ℝ → ℝ → ℝ → ℝ

/-- Embedding of `OptionPricingModel.price_black`: derive the volatility
from the wrapped model, validate the option type, then call the external
undiscounted-Black formula. -/
def PricingModel.price_black (ub : BlackRoutine) (m : PricingModel)
    (option_type : String) (spot strike years_to_maturity : ℝ) :
    Except String ℝ :=
  let volatility := m.volatility years_to_maturity
  match check_option_type option_type with
  | Except.error e => Except.error e
  | Except.ok _ =>
      Except.ok (ub spot strike volatility years_to_maturity option_type)

/-- Embedding of `OptionPricingModel.price_option_black`: the same
computation with the scalar fields extracted from a `VanillaOption`. -/
def PricingModel.price_option_black (ub : BlackRoutine) (m : PricingModel)
    (o : VanillaOption) : Except String ℝ :=
  m.price_black ub o.option_type o.spot o.strike o.years_to_maturity

/-- Embedding of `OptionPricingModel.price_black_scholes_merton`: derive
the volatility from the wrapped model, validate the option type, then
call the external Black-Scholes-Merton formula. -/
def PricingModel.price_black_scholes_merton (bsm : BSMRoutine)
    (m : PricingModel) (option_type : String)
    (spot strike years_to_maturity risk_free_rate dividend : ℝ) :
    Except String ℝ :=
  let volatility := m.volatility years_to_maturity
  match check_option_type option_type with
  | Except.error e => Except.error e
  | Except.ok _ =>
      Except.ok (bsm option_type spot strike years_to_maturity
        risk_free_rate volatility dividend)

/-- Embedding of `OptionPricingModel.price_option_black_scholes_merton`:
the same computation with the scalar fields extracted from a
`VanillaOption`. -/
def PricingModel.price_option_black_scholes_merton (bsm : BSMRoutine)
    (m : PricingModel) (o : VanillaOption) (risk_free_rate : ℝ) :
    Except String ℝ :=
  m.price_black_scholes_merton bsm o.option_type o.spot o.strike
    o.years_to_maturity risk_free_rate o.dividend

/-- The undiscounted-Black model price of an option, i.e. the payload of
`price_option_black` when the option type is valid. -/
def PricingModel.black_price_value (ub : BlackRoutine) (m : PricingModel)
    (o : VanillaOption) : ℝ :=
  ub o.spot o.strike (m.volatility o.years_to_maturity) o.years_to_maturity
    o.option_type

/-! ### `calibration.py` : `ModelCalibration` -/

/-- The result object of the external bounded optimiser
(`scipy.optimize.minimize`): the final iterate `x` and the convergence
flag `success`. -/
structure OptimizeResult where
  x : List ℝ
  success : Bool

/-- Bounds for one parameter: a lower bound and an optional upper bound
(`none` meaning unbounded above). -/
abbrev Bound := ℝ × Option ℝ

/-- The type of the external bounded-minimisation capability: it receives
the loss function, the initial point and the per-parameter bounds and
produces an `OptimizeResult`.  The `method` and `options` arguments of
`scipy.optimize.minimize` are absorbed into the choice of this
function. -/
abbrev Minimizer := (List ℝ → Except String ℝ) → List ℝ → List Bound →
  OptimizeResult

/-- The constant `ModelCalibration.DEFAULT_PARAMETER_LOWER_BOUND`. -/
def DEFAULT_PARAMETER_LOWER_BOUND : ℝ := 1e-4

/-- State of `ModelCalibration`: the collection of listed options. -/
structure ModelCalibration where
  options : List VanillaOption

/-- Evaluation of a Python list comprehension whose body may raise: the
elements are evaluated left to right and the first exception
propagates. -/
def mapExcept (f : α → Except ε β) : List α → Except ε (List β)
  | [] => Except.ok []
  | a :: l =>
    match f a with
    | Except.error e => Except.error e
    | Except.ok b =>
      match mapExcept f l with
      | Except.error e => Except.error e
      | Except.ok bs => Except.ok (b :: bs)

/-- Embedding of `ModelCalibration._get_loss_function`: the returned
closure assigns the candidate parameter vector to the model, prices every
option with the undiscounted-Black method, and returns the sum of the
squared differences between predicted and observed prices.  An exception
raised while pricing propagates out of the closure. -/
def ModelCalibration.loss_function (ub : BlackRoutine)
    (cal : ModelCalibration) (model : PricingModel) (parameters : List ℝ) :
    Except String ℝ :=
  let m := model.set_parameters parameters
  match mapExcept (fun o => m.price_option_black ub o) cal.options with
  | Except.error e => Except.error e
  | Except.ok predicted_prices =>
      let real_prices := cal.options.map (fun o => o.price)
      Except.ok
        ((List.zipWith (fun p r => (p - r) ^ 2) predicted_prices
          real_prices).sum)

/-- Embedding of `ModelCalibration.calibrate_model`: when no bounds are
supplied, use `(DEFAULT_PARAMETER_LOWER_BOUND, None)` for every entry of
the current parameter vector; minimise the loss function starting from
the current parameters of the model; overwrite the parameters of the
model with the final iterate of the optimiser; return the optimiser
result together with the updated model. -/
def ModelCalibration.calibrate_model (minimize : Minimizer)
    (ub : BlackRoutine) (cal : ModelCalibration) (model : PricingModel)
    (bounds : Option (List Bound)) : OptimizeResult × PricingModel :=
  let bounds' :=
    match bounds with
    | none =>
        List.replicate model.parameters.length
          (DEFAULT_PARAMETER_LOWER_BOUND, (none : Option ℝ))
    | some b => b
  let loss := cal.loss_function ub model
  let res := minimize loss model.parameters bounds'
  (res, model.set_parameters res.x)

/-! ### Auxiliary closed forms for the Van Loan block matrix of the LMRGW
system

For `A = [[-l, l], [0, 0]]` and `B = diag(s_x, s_y)` the block matrix
`M = [[A, B Bᵀ], [0, -Aᵀ]]` satisfies `M ^ 4 = l ^ 2 • M ^ 2`, so its
exponential is a linear combination of `1`, `M`, `M ^ 2` and `M ^ 3` with
hyperbolic coefficients.  The matrices below are `M`, `M ^ 2` and `M ^ 3`
written out. -/

/-- The Van Loan block matrix of the LMRGW system. -/
def Mmat (l sx sy : ℝ) : Mat4 :=
  !![-l, l, sx ^ 2, 0;
     0, 0, 0, sy ^ 2;
     0, 0, l, 0;
     0, 0, -l, 0]

/-- The square of `Mmat`. -/
def M2mat (l sx sy : ℝ) : Mat4 :=
  !![l ^ 2, -l ^ 2, 0, l * sy ^ 2;
     0, 0, -l * sy ^ 2, 0;
     0, 0, l ^ 2, 0;
     0, 0, -l ^ 2, 0]

/-- The cube of `Mmat`. -/
def M3mat (l sx sy : ℝ) : Mat4 :=
  !![-l ^ 3, l ^ 3, l ^ 2 * (sx ^ 2 - sy ^ 2), -l ^ 2 * sy ^ 2;
     0, 0, -l ^ 2 * sy ^ 2, 0;
     0, 0, l ^ 3, 0;
     0, 0, -l ^ 3, 0]

/-- Closed form of the matrix exponential `exp (t • Mmat l sx sy)`. -/
def expFormula (l sx sy t : ℝ) : Mat4 :=
  (1 : Mat4) + t • Mmat l sx sy +
    ((Real.cosh (l * t) - 1) / l ^ 2) • M2mat l sx sy +
    ((Real.sinh (l * t) - l * t) / l ^ 3) • M3mat l sx sy

end

/-! ## Theorems -/

/-! ### Supporting lemmas -/

/-- Char-level lower-casing is idempotent: the image of `Char.toLower`
contains no character in the upper-case range 65-90. -/
theorem charToLower_idem (c : Char) : c.toLower.toLower = c.toLower := by
  have hbase : ∀ n : Nat, n < 91 → 65 ≤ n →
      (Char.ofNat (n + 32)).toLower = Char.ofNat (n + 32) := by decide
  by_cases h : c.toNat ≥ 65 ∧ c.toNat ≤ 90
  · have h1 : c.toLower = Char.ofNat (c.toNat + 32) := by
      unfold Char.toLower
      rw [if_pos h]
    rw [h1]
    exact hbase c.toNat (Nat.lt_succ_of_le h.2) h.1
  · have h1 : c.toLower = c := by
      unfold Char.toLower
      rw [if_neg h]
    rw [h1, h1]

/-- String-level lower-casing is idempotent. -/
theorem pyLower_idem (s : String) : pyLower (pyLower s) = pyLower s := by
  unfold pyLower
  simp [List.map_map, Function.comp_def, charToLower_idem]

/-- Every option produced by the constructor carries a normalised
(lower-case) option type. -/
theorem mkVanillaOption_normalized (instrument option_type : String)
    (date maturity : ℤ) (price strike spot dividend : ℝ) :
    pyLower (mkVanillaOption instrument option_type date price strike spot
        maturity dividend).option_type =
      (mkVanillaOption instrument option_type date price strike spot
        maturity dividend).option_type :=
  pyLower_idem option_type

/-! ### C1 and C2 : the parameter setters, evaluated on the code -/

/-- C1 (code evaluation at the failing input): the `parameters` setters of
every variance-model variant in `models.py` store a negative rate or
volatility unchanged and raise no error — the setters are plain field
assignments and `_check_positivity` is never invoked — contradicting the
claim that assigning a negative value raises a domain error at assignment
time. -/
theorem c1_negative_parameters_stored_without_error :
    (OrnsteinUhlenbeck.set_parameters ⟨1, 1, 1⟩ ((-1 : ℝ), 1)).parameters =
        ((-1 : ℝ), (1 : ℝ)) ∧
      (BlackScholes.set_parameters ⟨1⟩ (-1 : ℝ)).parameters = (-1 : ℝ) ∧
      (LogMeanRevertingToGeneralisedWienerProcess.set_parameters ⟨1, 1, 1, 1⟩
          ((-1 : ℝ), 1, 1)).parameters = ((-1 : ℝ), (1 : ℝ), (1 : ℝ)) ∧
      (NumericalLogMeanRevertingToGeneralisedWienerProcess.set_parameters
          (.mk' 1 1 1 1) ((-1 : ℝ), 1, 1)).parameters =
        ((-1 : ℝ), (1 : ℝ), (1 : ℝ)) :=
  ⟨rfl, rfl, rfl, rfl⟩

/-- C2 (code evaluation at the failing input): after reassigning the
parameters of the numerical LMRGW model to `(1, 2, 3)`, the internal
`NumericalModel` holds the rebuilt dynamic matrix `[[-1, 1], [0, 0]]` as
`A`, but — because the `NumericalModel` setter executes
`self.B = value[0]` — it also holds that same matrix as `B` instead of
`diag(2, 3)`. -/
theorem c2_numerical_setter_stores_A_as_B :
    (NumericalLogMeanRevertingToGeneralisedWienerProcess.set_parameters
          (.mk' 1 1 1 1) ((1 : ℝ), 2, 3)).numerical_model.A =
        getAMatrix 1 ∧
      (NumericalLogMeanRevertingToGeneralisedWienerProcess.set_parameters
          (.mk' 1 1 1 1) ((1 : ℝ), 2, 3)).numerical_model.B =
        getAMatrix 1 ∧
      (NumericalLogMeanRevertingToGeneralisedWienerProcess.set_parameters
          (.mk' 1 1 1 1) ((1 : ℝ), 2, 3)).numerical_model.B ≠
        getBMatrix 2 3 := by
  refine ⟨rfl, rfl, fun h => ?_⟩
  have h00 := congrFun (congrFun h 0) 0
  simp only [NumericalLogMeanRevertingToGeneralisedWienerProcess.set_parameters,
    NumericalModel.set_parameters, getAMatrix, getBMatrix,
    Matrix.cons_val_zero, Matrix.cons_val'] at h00
  norm_num at h00

/-! ### C9 : `years_to_maturity` -/

/-- C9: `years_to_maturity` is the integer day difference divided by
`365.2425`; a maturity preceding the trade date yields a negative value
rather than an error, and a 30-day maturity yields about `0.0821`. -/
theorem c9_years_to_maturity_day_count (o : VanillaOption) :
    o.years_to_maturity * (365.2425 : ℝ) = ((o.maturity - o.date : ℤ) : ℝ) ∧
      (o.maturity < o.date → o.years_to_maturity < 0) ∧
      (o.maturity - o.date = 30 → |o.years_to_maturity - 0.0821| ≤ 0.01) := by
  refine ⟨?_, fun h => ?_, fun h => ?_⟩
  · unfold VanillaOption.years_to_maturity DAYS_IN_YEAR
    rw [div_mul_cancel₀]
    norm_num
  · unfold VanillaOption.years_to_maturity DAYS_IN_YEAR
    apply div_neg_of_neg_of_pos
    · exact_mod_cast sub_neg.mpr h
    · norm_num
  · unfold VanillaOption.years_to_maturity DAYS_IN_YEAR
    rw [h]
    rw [abs_le]
    norm_num

/-- Witness for C9: a 30-day option has `years_to_maturity` within `0.01`
of `0.0821`, and an option whose maturity precedes its trade date has a
negative `years_to_maturity`. -/
theorem c9_years_to_maturity_day_count_witness :
    (mkVanillaOption "sample" "c" 30 1 1 1 0 0).years_to_maturity < 0 ∧
      |(mkVanillaOption "sample" "c" 0 1 1 1 30 0).years_to_maturity -
          0.0821| ≤ 0.01 :=
  ⟨(c9_years_to_maturity_day_count _).2.1 (by decide),
    (c9_years_to_maturity_day_count _).2.2 (by decide)⟩

/-! ### C10 : the constructor never raises -/

/-- C10: the constructor stores every field unconditionally for any
option-type string (lower-casing it), and the membership check against
`{"c", "p"}` happens only when the implied volatility is requested: an
option with an invalid type exists, all its fields are readable, and only
the later request fails. -/
theorem c10_constructor_total_check_deferred (instrument option_type : String)
    (date maturity : ℤ) (price strike spot dividend : ℝ) (iv : IVRoutine) :
    (mkVanillaOption instrument option_type date price strike spot maturity
          dividend).instrument = instrument ∧
      (mkVanillaOption instrument option_type date price strike spot maturity
          dividend).option_type = pyLower option_type ∧
      (mkVanillaOption instrument option_type date price strike spot maturity
          dividend).date = date ∧
      (mkVanillaOption instrument option_type date price strike spot maturity
          dividend).price = price ∧
      (mkVanillaOption instrument option_type date price strike spot maturity
          dividend).strike = strike ∧
      (mkVanillaOption instrument option_type date price strike spot maturity
          dividend).spot = spot ∧
      (mkVanillaOption instrument option_type date price strike spot maturity
          dividend).maturity = maturity ∧
      (mkVanillaOption instrument option_type date price strike spot maturity
          dividend).dividend = dividend ∧
      (pyLower option_type ≠ "c" → pyLower option_type ≠ "p" →
        (mkVanillaOption instrument option_type date price strike spot
              maturity dividend).implied_volatility_of_undiscounted_price iv =
          Except.error "option_type shall be either c for call or p for put") := by
  refine ⟨rfl, rfl, rfl, rfl, rfl, rfl, rfl, rfl, fun h1 h2 => ?_⟩
  unfold VanillaOption.implied_volatility_of_undiscounted_price
  rw [if_pos]
  exact ⟨h1, h2⟩

/-- Witness for C10: constructing an option with the invalid type `"X"`
succeeds, its fields are readable, and the implied-volatility request on
it fails with the validation error. -/
theorem c10_constructor_total_check_deferred_witness :
    (mkVanillaOption "sample" "X" 0 1 2 3 30 0).strike = 2 ∧
      (mkVanillaOption "sample" "X" 0 1 2 3 30
          0).implied_volatility_of_undiscounted_price
          (fun _ _ _ _ _ => IVResult.ok 1) =
        Except.error "option_type shall be either c for call or p for put" :=
  ⟨(c10_constructor_total_check_deferred "sample" "X" 0 30 1 2 3 0
      (fun _ _ _ _ _ => IVResult.ok 1)).2.2.2.2.1,
    (c10_constructor_total_check_deferred "sample" "X" 0 30 1 2 3 0
      (fun _ _ _ _ _ => IVResult.ok 1)).2.2.2.2.2.2.2.2 (by decide) (by decide)⟩

/-! ### C6 : below-intrinsic clamping -/

/-- C6: for an option of valid type, when the external implied-volatility
routine signals the below-intrinsic condition the implied volatility is
exactly zero and no error is raised. -/
theorem c6_below_intrinsic_clamps_to_zero (iv : IVRoutine) (o : VanillaOption)
    (hty : o.option_type = "c" ∨ o.option_type = "p")
    (hbi : iv o.price o.spot o.strike o.years_to_maturity o.option_type =
      IVResult.belowIntrinsic) :
    o.implied_volatility_of_undiscounted_price iv = Except.ok 0 := by
  unfold VanillaOption.implied_volatility_of_undiscounted_price
  rcases hty with h | h <;> rw [h] at hbi <;> simp [h, hbi]

/-- Witness for C6: a call whose routine reports below-intrinsic gets
implied volatility zero. -/
theorem c6_below_intrinsic_clamps_to_zero_witness :
    (mkVanillaOption "sample" "C" 0 1 2 3 30
        0).implied_volatility_of_undiscounted_price
        (fun _ _ _ _ _ => IVResult.belowIntrinsic) = Except.ok 0 :=
  c6_below_intrinsic_clamps_to_zero (fun _ _ _ _ _ => IVResult.belowIntrinsic)
    (mkVanillaOption "sample" "C" 0 1 2 3 30 0) (Or.inl (by decide)) rfl

/-! ### C7 : invalid option types are rejected by implied volatility and
by every pricing method -/

/-- C7: an option whose normalised type is neither `"c"` nor `"p"` is
rejected with a validation error by the implied-volatility request and by
all four pricing methods of the adapter. -/
theorem c7_invalid_option_type_rejected (iv : IVRoutine) (ub : BlackRoutine)
    (bsm : BSMRoutine) (m : PricingModel) (o : VanillaOption)
    (spot strike ytm r : ℝ)
    (h1 : o.option_type ≠ "c") (h2 : o.option_type ≠ "p") :
    o.implied_volatility_of_undiscounted_price iv =
        Except.error "option_type shall be either c for call or p for put" ∧
      m.price_black ub o.option_type spot strike ytm =
        Except.error "option_type shall be either c for call or p for put" ∧
      m.price_option_black ub o =
        Except.error "option_type shall be either c for call or p for put" ∧
      m.price_black_scholes_merton bsm o.option_type spot strike ytm r
          o.dividend =
        Except.error "option_type shall be either c for call or p for put" ∧
      m.price_option_black_scholes_merton bsm o r =
        Except.error "option_type shall be either c for call or p for put" := by
  refine ⟨?_, ?_, ?_, ?_, ?_⟩ <;>
    simp [VanillaOption.implied_volatility_of_undiscounted_price,
      PricingModel.price_black, PricingModel.price_option_black,
      PricingModel.price_black_scholes_merton,
      PricingModel.price_option_black_scholes_merton, check_option_type,
      h1, h2]

/-- Witness for C7: an option with type `"x"` is rejected by the
implied-volatility request and by all pricing methods. -/
theorem c7_invalid_option_type_rejected_witness :
    (mkVanillaOption "sample" "x" 0 1 2 3 30
          0).implied_volatility_of_undiscounted_price
          (fun _ _ _ _ _ => IVResult.ok 1) =
        Except.error "option_type shall be either c for call or p for put" ∧
      PricingModel.price_option_black (fun _ _ _ _ _ => 0)
          ⟨[1], fun _ t => t⟩ (mkVanillaOption "sample" "x" 0 1 2 3 30 0) =
        Except.error "option_type shall be either c for call or p for put" :=
  ⟨(c7_invalid_option_type_rejected (fun _ _ _ _ _ => IVResult.ok 1)
      (fun _ _ _ _ _ => 0) (fun _ _ _ _ _ _ _ => 0) ⟨[1], fun _ t => t⟩
      (mkVanillaOption "sample" "x" 0 1 2 3 30 0) 1 1 1 0 (by decide)
      (by decide)).1,
    (c7_invalid_option_type_rejected (fun _ _ _ _ _ => IVResult.ok 1)
      (fun _ _ _ _ _ => 0) (fun _ _ _ _ _ _ _ => 0) ⟨[1], fun _ t => t⟩
      (mkVanillaOption "sample" "x" 0 1 2 3 30 0) 1 1 1 0 (by decide)
      (by decide)).2.2.1⟩

/-! ### C5 : calibration always overwrites the model in place -/

/-- C5: on every return from `calibrate_model` — for an arbitrary external
optimiser, hence in particular one whose result flags non-convergence —
the returned model is the input model with its parameter vector
overwritten by the final iterate `res.x` of the optimiser, every other
part of the model state being untouched, and the returned result is
exactly the result object of the optimiser. -/
theorem c5_calibrate_model_overwrites_in_place (minimize : Minimizer)
    (ub : BlackRoutine) (cal : ModelCalibration) (model : PricingModel)
    (bounds : Option (List Bound)) :
    (cal.calibrate_model minimize ub model bounds).2.parameters =
        (cal.calibrate_model minimize ub model bounds).1.x ∧
      (cal.calibrate_model minimize ub model bounds).2.varianceLaw =
        model.varianceLaw ∧
      (cal.calibrate_model minimize ub model bounds).2 =
        model.set_parameters
          (cal.calibrate_model minimize ub model bounds).1.x :=
  ⟨rfl, rfl, rfl⟩

/-! ### C4 : the calibration loss and the default bounds -/

/-- Pricing a list of options of valid type never raises: the monadic map
over the list returns the list of undiscounted-Black price values. -/
theorem mapM_price_option_black (ub : BlackRoutine) (m : PricingModel)
    (l : List VanillaOption)
    (h : ∀ o ∈ l, o.option_type = "c" ∨ o.option_type = "p") :
    mapExcept (fun o => m.price_option_black ub o) l =
      Except.ok (l.map (m.black_price_value ub)) := by
  induction l with
  | nil => rfl
  | cons o l ih =>
    have ho : m.price_option_black ub o =
        Except.ok (m.black_price_value ub o) := by
      have := h o (List.mem_cons_self o l)
      simp [PricingModel.price_option_black, PricingModel.price_black,
        PricingModel.black_price_value, check_option_type, this]
    have hl := ih (fun o' ho' => h o' (List.mem_cons_of_mem o ho'))
    simp [mapExcept, ho, hl]

/-- The sum of squared differences of two images of the same list is the
sum of the squared differences taken pointwise. -/
theorem zipWith_sq_diff_sum (f g : VanillaOption → ℝ)
    (l : List VanillaOption) :
    (List.zipWith (fun p r => (p - r) ^ 2) (l.map f) (l.map g)).sum =
      (l.map (fun o => (f o - g o) ^ 2)).sum := by
  induction l with
  | nil => rfl
  | cons o l ih => simp [ih]

/-- C4: for options of valid type the calibration loss at a parameter
vector `θ` is the sum over the options of the squared difference between
the undiscounted-Black model price under `θ` and the observed price; and
`calibrate_model`, when no bounds are supplied, invokes the optimiser on
that loss starting from the current parameter vector of the model with the
bound pair `(1e-4, +∞)` for every parameter, returning its result. -/
theorem c4_calibration_loss_and_defaults (minimize : Minimizer)
    (ub : BlackRoutine) (cal : ModelCalibration) (model : PricingModel)
    (θ : List ℝ) (hne : cal.options ≠ [])
    (hval : ∀ o ∈ cal.options,
      o.option_type = "c" ∨ o.option_type = "p") :
    cal.loss_function ub model θ =
        Except.ok ((cal.options.map (fun o =>
          ((model.set_parameters θ).black_price_value ub o - o.price) ^
            2)).sum) ∧
      cal.calibrate_model minimize ub model none =
        (minimize (cal.loss_function ub model) model.parameters
            (List.replicate model.parameters.length
              ((1e-4 : ℝ), (none : Option ℝ))),
          model.set_parameters
            (minimize (cal.loss_function ub model) model.parameters
              (List.replicate model.parameters.length
                ((1e-4 : ℝ), (none : Option ℝ)))).x) := by
  constructor
  · simp only [ModelCalibration.loss_function]
    rw [mapM_price_option_black ub (model.set_parameters θ) cal.options hval]
    exact congrArg Except.ok (zipWith_sq_diff_sum _ _ _)
  · rfl

/-- Witness for C4: a concrete one-option calibration problem with a
concrete optimiser. -/
theorem c4_calibration_loss_and_defaults_witness :
    (ModelCalibration.mk [mkVanillaOption "sample" "c" 0 1 2 3 30 0]
          ).loss_function (fun _ _ _ _ _ => 5) ⟨[1], fun _ t => t⟩ [1] =
        Except.ok ((5 - 1 : ℝ) ^ 2) := by
  have h := (c4_calibration_loss_and_defaults
    (fun _ _ _ => OptimizeResult.mk [1] true) (fun _ _ _ _ _ => 5)
    (ModelCalibration.mk [mkVanillaOption "sample" "c" 0 1 2 3 30 0])
    ⟨[1], fun _ t => t⟩ [1] (by simp)
    (by intro o ho; simp at ho; subst ho; exact Or.inl (by decide))).1
  rw [h]
  norm_num [PricingModel.black_price_value, mkVanillaOption]

/-! ### C8 : the dataframe round trip -/

/-- C8: converting a list of options (each carrying the normalised
option-type code the constructor stores) to the tabular representation
and back reproduces the list exactly — every field of every record, in
the original order.  Every option built by the constructor satisfies the
normalisation premise, by `mkVanillaOption_normalized`. -/
theorem c8_dataframe_round_trip (l : List VanillaOption)
    (hnorm : ∀ o ∈ l, pyLower o.option_type = o.option_type) :
    pandas_dataframe_to_option_list (option_list_to_pandas_dataframe l) =
      l := by
  induction l with
  | nil => rfl
  | cons o l ih =>
    have ho := hnorm o (List.mem_cons_self o l)
    have hl := ih (fun o' ho' => hnorm o' (List.mem_cons_of_mem o ho'))
    unfold pandas_dataframe_to_option_list option_list_to_pandas_dataframe
    unfold pandas_dataframe_to_option_list option_list_to_pandas_dataframe
      at hl
    simp only [List.map_cons, List.map_map] at hl ⊢
    rw [hl]
    cases o with
    | mk instrument option_type date price strike spot maturity dividend =>
      simp only [mkVanillaOption, VanillaOption.to_dict] at ho ⊢
      rw [ho]

/-- Witness for C8: a two-element round trip with a call and a put. -/
theorem c8_dataframe_round_trip_witness :
    pandas_dataframe_to_option_list (option_list_to_pandas_dataframe
        [mkVanillaOption "a" "C" 0 1 2 3 30 0,
          mkVanillaOption "b" "p" 0 2 3 4 60 1]) =
      [mkVanillaOption "a" "C" 0 1 2 3 30 0,
        mkVanillaOption "b" "p" 0 2 3 4 60 1] :=
  c8_dataframe_round_trip _ (by
    intro o ho
    simp only [List.mem_cons, List.not_mem_nil, or_false] at ho
    rcases ho with h | h <;> subst h <;> decide)

/-! ### C3 : closed-form versus numerical LMRGW variance

The proof computes the matrix exponential of the Van Loan block matrix in
closed form.  The key algebraic fact is `M ^ 4 = l ^ 2 • M ^ 2`, which
collapses the exponential series to a combination of `1`, `M`, `M ^ 2`
and `M ^ 3` with coefficients given by the hyperbolic sine and cosine
series. -/

/-- The block matrix assembled by `NumericalModel.variance` for the
matrices of the LMRGW system is `Mmat`. -/
theorem blockM_lmrgw (l sx sy : ℝ) :
    blockM (getAMatrix l)
        (getBMatrix sx sy * (getBMatrix sx sy).transpose) =
      Mmat l sx sy := by
  unfold blockM getAMatrix getBMatrix Mmat
  ext i j
  fin_cases i <;> fin_cases j <;>
    simp [Matrix.mul_apply, Fin.sum_univ_two, Matrix.vecHead,
      Matrix.vecTail] <;> ring

/-- The square of the block matrix. -/
theorem Mmat_sq (l sx sy : ℝ) :
    Mmat l sx sy * Mmat l sx sy = M2mat l sx sy := by
  unfold Mmat M2mat
  ext i j
  fin_cases i <;> fin_cases j <;>
    simp [Matrix.mul_apply, Fin.sum_univ_four, Matrix.vecHead,
      Matrix.vecTail] <;> ring

/-- The cube of the block matrix. -/
theorem M2mat_mul_Mmat (l sx sy : ℝ) :
    M2mat l sx sy * Mmat l sx sy = M3mat l sx sy := by
  unfold Mmat M2mat M3mat
  ext i j
  fin_cases i <;> fin_cases j <;>
    simp [Matrix.mul_apply, Fin.sum_univ_four, Matrix.vecHead,
      Matrix.vecTail] <;> ring

/-- The fourth power of the block matrix collapses onto its square. -/
theorem M3mat_mul_Mmat (l sx sy : ℝ) :
    M3mat l sx sy * Mmat l sx sy = l ^ 2 • M2mat l sx sy := by
  unfold Mmat M2mat M3mat
  ext i j
  fin_cases i <;> fin_cases j <;>
    simp [Matrix.mul_apply, Fin.sum_univ_four, Matrix.smul_apply,
      Matrix.vecHead, Matrix.vecTail] <;> ring

/-- The square of `M2mat` collapses as well. -/
theorem M2mat_sq (l sx sy : ℝ) :
    M2mat l sx sy * M2mat l sx sy = l ^ 2 • M2mat l sx sy := by
  calc M2mat l sx sy * M2mat l sx sy
      = M2mat l sx sy * (Mmat l sx sy * Mmat l sx sy) := by rw [Mmat_sq]
    _ = M2mat l sx sy * Mmat l sx sy * Mmat l sx sy := (mul_assoc _ _ _).symm
    _ = M3mat l sx sy * Mmat l sx sy := by rw [M2mat_mul_Mmat]
    _ = l ^ 2 • M2mat l sx sy := M3mat_mul_Mmat l sx sy

/-- Even powers of the block matrix, from the square on. -/
theorem Mmat_pow_even (l sx sy : ℝ) (k : ℕ) :
    Mmat l sx sy ^ (2 * k + 2) = ((l ^ 2) ^ k) • M2mat l sx sy := by
  induction k with
  | zero => simpa [pow_two] using Mmat_sq l sx sy
  | succ k ih =>
    have h2 : 2 * (k + 1) + 2 = (2 * k + 2) + 2 := by ring
    have hsq : Mmat l sx sy ^ 2 = M2mat l sx sy := by
      rw [pow_two, Mmat_sq]
    rw [h2, pow_add, ih, hsq, smul_mul_assoc, M2mat_sq, smul_smul,
      ← pow_succ]

/-- Odd powers of the block matrix, from the cube on. -/
theorem Mmat_pow_odd (l sx sy : ℝ) (k : ℕ) :
    Mmat l sx sy ^ (2 * k + 3) = ((l ^ 2) ^ k) • M3mat l sx sy := by
  have h2 : 2 * k + 3 = (2 * k + 2) + 1 := by ring
  rw [h2, pow_succ, Mmat_pow_even, smul_mul_assoc, M2mat_mul_Mmat]

/-- Closed form of the exponential of the scaled block matrix, by
splitting the exponential series into its even and odd parts and using
the collapse of the powers of `Mmat`. -/
theorem exp_smul_Mmat (l sx sy t : ℝ) (hl : l ≠ 0) :
    NormedSpace.exp ℝ (t • Mmat l sx sy) = expFormula l sx sy t := by
  have hcosh1 : HasSum
      (fun n : ℕ => (l * t) ^ (2 * (n + 1)) / ((2 * (n + 1)).factorial : ℝ))
      (Real.cosh (l * t) - 1) :=
    (hasSum_nat_add_iff
      (f := fun k : ℕ => (l * t) ^ (2 * k) / ((2 * k).factorial : ℝ)) 1
      (g := Real.cosh (l * t) - 1)).mpr
      (by simpa using Real.hasSum_cosh (l * t))
  have hsinh1 : HasSum
      (fun n : ℕ =>
        (l * t) ^ (2 * (n + 1) + 1) / ((2 * (n + 1) + 1).factorial : ℝ))
      (Real.sinh (l * t) - l * t) :=
    (hasSum_nat_add_iff
      (f := fun k : ℕ =>
        (l * t) ^ (2 * k + 1) / ((2 * k + 1).factorial : ℝ)) 1
      (g := Real.sinh (l * t) - l * t)).mpr
      (by simpa using Real.hasSum_sinh (l * t))
  have he2 := (hcosh1.div_const (l ^ 2)).smul_const (M2mat l sx sy)
  have ho2 := (hsinh1.div_const (l ^ 3)).smul_const (M3mat l sx sy)
  have heq : (fun n : ℕ =>
        ((l * t) ^ (2 * (n + 1)) / ((2 * (n + 1)).factorial : ℝ) / l ^ 2) •
          M2mat l sx sy) =
      (fun n : ℕ => (((2 * (n + 1)).factorial : ℝ))⁻¹ •
        (t • Mmat l sx sy) ^ (2 * (n + 1))) := by
    funext k
    have h2 : 2 * (k + 1) = 2 * k + 2 := by ring
    rw [h2, smul_pow, Mmat_pow_even, smul_smul, smul_smul]
    congr 1
    have hf : ((2 * k + 2).factorial : ℝ) ≠ 0 := by
      exact_mod_cast (Nat.factorial_pos (2 * k + 2)).ne'
    field_simp
    ring
  have hoeq : (fun n : ℕ =>
        ((l * t) ^ (2 * (n + 1) + 1) / ((2 * (n + 1) + 1).factorial : ℝ) /
            l ^ 3) • M3mat l sx sy) =
      (fun n : ℕ => (((2 * (n + 1) + 1).factorial : ℝ))⁻¹ •
        (t • Mmat l sx sy) ^ (2 * (n + 1) + 1)) := by
    funext k
    have h2 : 2 * (k + 1) + 1 = 2 * k + 3 := by ring
    rw [h2, smul_pow, Mmat_pow_odd, smul_smul, smul_smul]
    congr 1
    have hf : ((2 * k + 3).factorial : ℝ) ≠ 0 := by
      exact_mod_cast (Nat.factorial_pos (2 * k + 3)).ne'
    field_simp
    ring
  rw [heq] at he2
  rw [hoeq] at ho2
  have heven : HasSum
      (fun k : ℕ =>
        (((2 * k).factorial : ℝ))⁻¹ • (t • Mmat l sx sy) ^ (2 * k))
      (((Real.cosh (l * t) - 1) / l ^ 2) • M2mat l sx sy + 1) := by
    have h1 := (hasSum_nat_add_iff
      (f := fun k : ℕ =>
        (((2 * k).factorial : ℝ))⁻¹ • (t • Mmat l sx sy) ^ (2 * k)) 1).mp he2
    simpa using h1
  have hodd : HasSum
      (fun k : ℕ => (((2 * k + 1).factorial : ℝ))⁻¹ •
        (t • Mmat l sx sy) ^ (2 * k + 1))
      (((Real.sinh (l * t) - l * t) / l ^ 3) • M3mat l sx sy +
        t • Mmat l sx sy) := by
    have h1 := (hasSum_nat_add_iff
      (f := fun k : ℕ => (((2 * k + 1).factorial : ℝ))⁻¹ •
        (t • Mmat l sx sy) ^ (2 * k + 1)) 1).mp ho2
    simpa using h1
  have hgoal : HasSum
      (fun n : ℕ => ((n.factorial : ℝ))⁻¹ • (t • Mmat l sx sy) ^ n)
      ((((Real.cosh (l * t) - 1) / l ^ 2) • M2mat l sx sy + 1) +
        (((Real.sinh (l * t) - l * t) / l ^ 3) • M3mat l sx sy +
          t • Mmat l sx sy)) :=
    HasSum.even_add_odd heven hodd
  rw [NormedSpace.exp_eq_tsum]
  have hval : (((Real.cosh (l * t) - 1) / l ^ 2) • M2mat l sx sy + 1) +
        (((Real.sinh (l * t) - l * t) / l ^ 3) • M3mat l sx sy +
          t • Mmat l sx sy) = expFormula l sx sy t := by
    unfold expFormula
    abel
  rw [hval] at hgoal
  exact hgoal.tsum_eq

set_option maxHeartbeats 2000000 in
/-- The closed-form LMRGW variance agrees exactly with the Van Loan
computation of `NumericalModel.variance` on the matrices
`A = [[-l, l], [0, 0]]` and `B = diag(s_x, s_y)`, for any mean-reversion
strength `l ≠ 0` and symmetric initial covariance. -/
theorem lmrgw_variance_eq_numerical (p0 : Mat2) (l sx sy t : ℝ)
    (hl : l ≠ 0) (hsym : p0 1 0 = p0 0 1) :
    LogMeanRevertingToGeneralisedWienerProcess.variance ⟨p0, l, sx, sy⟩ t =
      NumericalModel.variance ⟨getAMatrix l, getBMatrix sx sy, p0⟩ t := by
  unfold NumericalModel.variance
  rw [show (NumericalModel.mk (getAMatrix l) (getBMatrix sx sy) p0).A =
    getAMatrix l from rfl]
  rw [show (NumericalModel.mk (getAMatrix l) (getBMatrix sx sy) p0).B =
    getBMatrix sx sy from rfl]
  rw [show (NumericalModel.mk (getAMatrix l) (getBMatrix sx sy) p0).p_0 =
    p0 from rfl]
  rw [blockM_lmrgw, exp_smul_Mmat l sx sy t hl]
  set a := Real.exp (-(l * t)) with ha
  set b := Real.exp (l * t) with hb
  have hab : a * b = 1 := by
    rw [ha, hb, ← Real.exp_add]
    simp
  have ha0 : a ≠ 0 := Real.exp_ne_zero _
  have hb0 : b ≠ 0 := Real.exp_ne_zero _
  have hcoshval : Real.cosh (l * t) = (b + a) / 2 := by
    rw [Real.cosh_eq]
  have hsinhval : Real.sinh (l * t) = (b - a) / 2 := by
    rw [Real.sinh_eq]
  have hFmat : expFormula l sx sy t =
      !![a, 1 - a,
          t * sx ^ 2 + ((b - a) / 2 - l * t) * (sx ^ 2 - sy ^ 2) / l,
          sy ^ 2 * (a - 1 + l * t) / l;
        0, 1, -(sy ^ 2 * (b - 1 - l * t)) / l, t * sy ^ 2;
        0, 0, b, 0;
        0, 0, 1 - b, 1] := by
    unfold expFormula Mmat M2mat M3mat
    rw [hcoshval, hsinhval]
    ext i j
    fin_cases i <;> fin_cases j <;>
      simp [Matrix.add_apply, Matrix.smul_apply, Matrix.one_apply,
        Matrix.vecHead, Matrix.vecTail, smul_eq_mul] <;>
      field_simp <;> ring
  rw [hFmat]
  simp only [Matrix.cons_val_zero, Matrix.cons_val_one, Matrix.head_cons,
    Matrix.cons_val_two, Matrix.cons_val_three, Matrix.head_fin_const,
    Matrix.cons_val', Matrix.of_apply, Matrix.empty_val',
    Matrix.cons_val_fin_one, Matrix.vecHead, Matrix.vecTail,
    Matrix.cons_val_succ, Function.comp_apply]
  have hinv : (!![b, 0; 1 - b, 1] : Mat2)⁻¹ = !![a, 0; 1 - a, 1] := by
    apply Matrix.inv_eq_right_inv
    ext i j
    fin_cases i <;> fin_cases j <;>
      simp [Matrix.mul_apply, Fin.sum_univ_two, Matrix.one_apply,
        Matrix.vecHead, Matrix.vecTail] <;>
      nlinarith [hab]
  rw [hinv]
  have hbinv : b = a⁻¹ := by
    rw [hb, ha, Real.exp_neg, inv_inv]
  have hexp2 : Real.exp (-2 * l * t) = a * a := by
    rw [ha, ← Real.exp_add]
    ring_nf
  have hexp1 : Real.exp (-l * t) = a := by
    rw [ha]
    ring_nf
  unfold LogMeanRevertingToGeneralisedWienerProcess.variance
  rw [show (LogMeanRevertingToGeneralisedWienerProcess.mk p0 l sx sy).p_0 =
    p0 from rfl]
  rw [show (LogMeanRevertingToGeneralisedWienerProcess.mk p0 l sx sy).l =
    l from rfl]
  rw [show (LogMeanRevertingToGeneralisedWienerProcess.mk p0 l sx sy).s_x =
    sx from rfl]
  rw [show (LogMeanRevertingToGeneralisedWienerProcess.mk p0 l sx sy).s_y =
    sy from rfl]
  rw [hexp2, hexp1]
  simp only [Matrix.mul_apply, Matrix.add_apply, Fin.sum_univ_two,
    Matrix.cons_val_zero, Matrix.cons_val_one, Matrix.head_cons,
    Matrix.cons_val', Matrix.of_apply, Matrix.empty_val',
    Matrix.cons_val_fin_one, Matrix.vecHead, Matrix.vecTail,
    Function.comp_apply]
  rw [hbinv, hsym]
  field_simp
  ring

/-- C3: for every valid parameter set `l > 0`, `s_x ≥ 0`, `s_y ≥ 0`,
every symmetric 2-by-2 initial covariance `p_0` and every `t > 0`, the
closed-form LMRGW variance coincides exactly (hence within any relative
tolerance, in particular `1e-8`) with the variance computed by the
numerical LMRGW model, i.e. by the Van Loan matrix-exponential
computation on `A = [[-l, l], [0, 0]]` and `B = diag(s_x, s_y)`. -/
theorem c3_lmrgw_closed_form_matches_numerical (p0 : Mat2) (l sx sy t : ℝ)
    (hl : 0 < l) (hsx : 0 ≤ sx) (hsy : 0 ≤ sy) (ht : 0 < t)
    (hsym : p0 1 0 = p0 0 1) :
    LogMeanRevertingToGeneralisedWienerProcess.variance ⟨p0, l, sx, sy⟩ t =
      NumericalLogMeanRevertingToGeneralisedWienerProcess.variance
        (.mk' p0 l sx sy) t :=
  lmrgw_variance_eq_numerical p0 l sx sy t (ne_of_gt hl) hsym

/-- Witness for C3: the consistency instance for
`l = 1, s_x = 1, s_y = 1, t = 1` and identity initial covariance. -/
theorem c3_lmrgw_closed_form_matches_numerical_witness :
    LogMeanRevertingToGeneralisedWienerProcess.variance
        ⟨!![1, 0; 0, 1], 1, 1, 1⟩ 1 =
      NumericalLogMeanRevertingToGeneralisedWienerProcess.variance
        (.mk' !![1, 0; 0, 1] 1 1 1) 1 :=
  c3_lmrgw_closed_form_matches_numerical !![1, 0; 0, 1] 1 1 1 1
    (by norm_num) (by norm_num) (by norm_num) (by norm_num) (by simp)

end VOP
